import Mathlib

/-!
Verification of the identity-federation and session core of
tokiwa-calendar-backend.

The Go source is shallowly embedded: each Go function that the properties
refer to becomes a Lean function of the same name.  Pointer mutation of a
`UserData` becomes returning an updated `UserData`; the Firestore `users`
collection becomes an association list from document id (uid) to `UserData`,
threaded explicitly through the functions that read or write it; Go's
`(T, error)` results become `Except String T` (or `Except FirebaseErr T`
where a caller inspects the error text).  External collaborators
(Firebase Auth, the Google endpoints, Firestore write outcomes) are supplied
as explicit oracle inputs, so every branch of the handler code stays visible.
-/

/-- Go struct `EmailProviderInfo` (password-login binding):
fields `EmailAddress`, `UserUID`. -/
structure EmailProviderInfo where
  EmailAddress : String
  UserUID : String
deriving DecidableEq, Repr

/-- Go struct `OAuthProviderInfo` (OAuth binding): fields `UserUID`,
`EmailAddress`. -/
structure OAuthProviderInfo where
  UserUID : String
  EmailAddress : String
deriving DecidableEq, Repr

/-- Go struct `UserData`: the per-user identity document stored in
Firestore, with one binding list per provider kind. -/
structure UserData where
  UserName : String
  UserColor : String
  UID : String
  Email : List EmailProviderInfo
  Google : List OAuthProviderInfo
  GitHub : List OAuthProviderInfo
  Twitter : List OAuthProviderInfo
deriving DecidableEq, Repr

/-- The fresh `UserData` literal the Go code builds for a previously unseen
uid: `UserName ""`, `UserColor "#3b82f6"`, all binding lists empty. -/
def newUserData (uid : String) : UserData :=
  { UserName := "", UserColor := "#3b82f6", UID := uid,
    Email := [], Google := [], GitHub := [], Twitter := [] }

/-- Go `addEmailProvider(userData, email, uid)`: if some existing entry
matches on `EmailAddress` or on `UserUID`, the document is returned
unchanged; otherwise the new entry is appended. -/
def addEmailProvider (userData : UserData) (email uid : String) : UserData :=
  if userData.Email.any (fun i => i.EmailAddress == email || i.UserUID == uid) then
    userData
  else
    { userData with Email := userData.Email ++ [⟨email, uid⟩] }

/-- The duplicate-check-and-append loop shared by the three OAuth cases of
Go `addOAuthProvider` (it operates through a pointer to the selected
slice). -/
def addOAuthInfo (l : List OAuthProviderInfo) (email uid : String) :
    List OAuthProviderInfo :=
  if l.any (fun o => o.EmailAddress == email || o.UserUID == uid) then l
  else l ++ [⟨uid, email⟩]

/-- Go `addOAuthProvider(userData, provider, email, uid)`: dispatches on the
provider string; an unknown provider is a no-op (the Go `default: return`). -/
def addOAuthProvider (userData : UserData) (provider email uid : String) :
    UserData :=
  match provider with
  | "google" => { userData with Google := addOAuthInfo userData.Google email uid }
  | "github" => { userData with GitHub := addOAuthInfo userData.GitHub email uid }
  | "twitter" => { userData with Twitter := addOAuthInfo userData.Twitter email uid }
  | _ => userData

/-- The four binding kinds of the data model, in the spec's precedence
order. -/
inductive ProviderKind where
  | password
  | google
  | github
  | twitter
deriving DecidableEq, Repr

/-- The spec's `addBinding(identity, kind, providerUID, email)`, realized in
the source as `addEmailProvider` for the password kind and
`addOAuthProvider` for the OAuth kinds (the spec's `providerUID` is the
`uid` argument / `UserUID` field of the Go functions). -/
def addBinding (d : UserData) (k : ProviderKind) (providerUID email : String) :
    UserData :=
  match k with
  | .password => addEmailProvider d email providerUID
  | .google => addOAuthProvider d "google" email providerUID
  | .github => addOAuthProvider d "github" email providerUID
  | .twitter => addOAuthProvider d "twitter" email providerUID

/-- The duplicate test the source loops perform on the kind's list: some
entry matches on the email or on the provider uid. -/
def hasMatchingBinding (d : UserData) (k : ProviderKind)
    (providerUID email : String) : Bool :=
  match k with
  | .password => d.Email.any (fun i => i.EmailAddress == email || i.UserUID == providerUID)
  | .google => d.Google.any (fun o => o.EmailAddress == email || o.UserUID == providerUID)
  | .github => d.GitHub.any (fun o => o.EmailAddress == email || o.UserUID == providerUID)
  | .twitter => d.Twitter.any (fun o => o.EmailAddress == email || o.UserUID == providerUID)

/-- How many entries of the kind's list match the given provider uid or
email. -/
def countMatchingBindings (d : UserData) (k : ProviderKind)
    (providerUID email : String) : Nat :=
  match k with
  | .password => d.Email.countP (fun i => i.EmailAddress == email || i.UserUID == providerUID)
  | .google => d.Google.countP (fun o => o.EmailAddress == email || o.UserUID == providerUID)
  | .github => d.GitHub.countP (fun o => o.EmailAddress == email || o.UserUID == providerUID)
  | .twitter => d.Twitter.countP (fun o => o.EmailAddress == email || o.UserUID == providerUID)

/-- The Firestore `users` collection: an association list from document id
(the uid the document is keyed by) to the document.  A `Where(...).Limit(1)`
query is modelled as the first entry satisfying the query's predicate. -/
abbrev FirestoreUsers := List (String × UserData)

/-- Go `firestoreClient.Collection("users").Doc(uid).Set(ctx, userData)`:
upsert of the document keyed by `uid` (the body of
`saveUserDataToFirestore` when the write succeeds). -/
def setDoc (store : FirestoreUsers) (uid : String) (d : UserData) :
    FirestoreUsers :=
  (uid, d) :: store.filter (fun p => !(p.1 == uid))

/-- Point lookup of the document keyed by `uid`. -/
def getDoc (store : FirestoreUsers) (uid : String) : Option UserData :=
  (store.find? (fun p => p.1 == uid)).map (·.2)

/-- The predicate of the query `Where("<kind>.emailAddress", "==", email)`:
the document's binding list for that kind contains an entry with that
email. -/
def matchesKindEmail (u : UserData) (k : ProviderKind) (e : String) : Bool :=
  match k with
  | .password => u.Email.any (fun i => i.EmailAddress == e)
  | .google => u.Google.any (fun o => o.EmailAddress == e)
  | .github => u.GitHub.any (fun o => o.EmailAddress == e)
  | .twitter => u.Twitter.any (fun o => o.EmailAddress == e)

/-- One `Where("<kind>.emailAddress", "==", email).Limit(1)` query of
`findOrCreateUserDataByEmail`. -/
def findUserByKindEmail (store : FirestoreUsers) (k : ProviderKind)
    (e : String) : Option UserData :=
  (store.find? (fun p => matchesKindEmail p.2 k e)).map (·.2)

/-- Go `findOrCreateUserDataByEmail(ctx, email)`: four queries in the fixed
source order (email/password, google, github, twitter); the first hit is
returned, and when all four come back empty the function returns the
`no existing user data found` error. -/
def findOrCreateUserDataByEmail (store : FirestoreUsers) (email : String) :
    Except String UserData :=
  match findUserByKindEmail store .password email with
  | some u => .ok u
  | none =>
    match findUserByKindEmail store .google email with
    | some u => .ok u
    | none =>
      match findUserByKindEmail store .github email with
      | some u => .ok u
      | none =>
        match findUserByKindEmail store .twitter email with
        | some u => .ok u
        | none => .error ("no existing user data found for email: " ++ email)

/-- Go `getUserDataByUID(ctx, uid)`: point lookup by document id first, then
fallback queries on `google.userUID`, `github.userUID`, `twitter.userUID`,
`email.userUID` in the source's order, and finally the default document for
that uid.  (The Go function returns an error only when a fetched document
fails to decode; decoding cannot fail in the embedding, so the result is
total.) -/
def getUserDataByUID (store : FirestoreUsers) (uid : String) : UserData :=
  match getDoc store uid with
  | some d => d
  | none =>
    match (store.find? (fun p => p.2.Google.any (fun o => o.UserUID == uid))).map (·.2) with
    | some d => d
    | none =>
      match (store.find? (fun p => p.2.GitHub.any (fun o => o.UserUID == uid))).map (·.2) with
      | some d => d
      | none =>
        match (store.find? (fun p => p.2.Twitter.any (fun o => o.UserUID == uid))).map (·.2) with
        | some d => d
        | none =>
          match (store.find? (fun p => p.2.Email.any (fun i => i.UserUID == uid))).map (·.2) with
          | some d => d
          | none => newUserData uid

/-- Go `linkGoogleAccount(ctx, userRecord, credential)`: fetch (or default)
the identity document for the user's uid, merge the google binding with
`addOAuthProvider`, and persist; a failed write is the only error.
`saveOk` is the outcome of the Firestore write. -/
def linkGoogleAccount (store : FirestoreUsers) (uid email : String)
    (saveOk : Bool) : Except String FirestoreUsers :=
  let userData := getUserDataByUID store uid
  let userData := addOAuthProvider userData "google" email uid
  if saveOk then .ok (setDoc store uid userData)
  else .error "failed to save user data"

/-- The session-token signing methods relevant to the handler: the three
HMAC family members the golang-jwt library groups under
`SigningMethodHMAC`, plus non-HMAC header algorithms a presented token may
declare. -/
inductive JwtAlg where
  | HS256
  | HS384
  | HS512
  | none
  | RS256
deriving DecidableEq, Repr

/-- Whether the token's method is in the `SigningMethodHMAC` family — the
type assertion performed inside the `jwt.Parse` keyfunc of
`validateSessionToken`. -/
def isHMAC : JwtAlg → Bool
  | .HS256 => true
  | .HS384 => true
  | .HS512 => true
  | _ => false

/-- A numeric registered claim as it sits in the dynamic `jwt.MapClaims`
map: missing from the map, a numeric value (unix seconds), or present with
a non-numeric JSON type (which every `Verify...` helper of golang-jwt v4
answers `false` to, and every `.(float64)` assertion fails on). -/
inductive NumClaim where
  | absent
  | num (v : Int)
  | malformed
deriving DecidableEq, Repr

/-- The claim set of a parsed token.  Go's `jwt.MapClaims` is a dynamic map;
`uid`/`email` are `none` when absent or not a string (the test
`claims["k"].(string)` performs), and the registered numeric claims
`exp`/`iat`/`nbf` are `NumClaim`s. -/
structure JwtClaims where
  uid : Option String
  email : Option String
  exp : NumClaim
  iat : NumClaim
  nbf : NumClaim
deriving DecidableEq, Repr

/-- A session token.  HMAC signing is modelled symbolically: `sigKey` is the
key whose MAC the token's signature segment verifies under (a tampered
signature is one that verifies under no configured key, i.e. a `sigKey`
different from the server's secret), and `method` is the `alg` the header
declares. -/
structure JwtToken where
  method : JwtAlg
  claims : JwtClaims
  sigKey : String
deriving DecidableEq, Repr

/-- The hardcoded development key both session functions fall back to when
the `JWT_SECRET` environment variable is empty. -/
def defaultDevSecret : String := "your-default-secret-key-for-development-only"

/-- The `secretKey := os.Getenv("JWT_SECRET"); if secretKey == "" { ... }`
prologue shared by `generateSessionToken` and `validateSessionToken`:
`jwtSecretEnv` is the environment variable's value, `""` meaning unset. -/
def resolveJwtSecret (jwtSecretEnv : String) : String :=
  if jwtSecretEnv = "" then defaultDevSecret else jwtSecretEnv

/-- Go struct `UserSession` (`ExpiresAt` in unix seconds). -/
structure UserSession where
  UID : String
  Email : String
  ExpiresAt : Int
deriving DecidableEq, Repr

/-- Go `generateSessionToken(uid, email)`: claims
`{uid, email, exp = now + 24h, iat = now}` signed with HS256 under the
resolved secret.  `now` is `time.Now().Unix()`.  The Go result type is
`(string, error)`; HMAC signing with a byte-slice key cannot fail, so the
embedding always returns `ok`. -/
def generateSessionToken (jwtSecretEnv uid email : String) (now : Int) :
    Except String JwtToken :=
  Except.ok
    { method := .HS256,
      claims := { uid := some uid, email := some email,
                  exp := .num (now + 86400), iat := .num now, nbf := .absent },
      sigKey := resolveJwtSecret jwtSecretEnv }

/-- golang-jwt v4 `MapClaims.VerifyExpiresAt(now, false)`, run by
`jwt.Parse` via `MapClaims.Valid`: an absent (or zero — v4's special case)
`exp` passes, a numeric `exp` passes while `now` is strictly before it, and
a non-numeric `exp` fails. -/
def verifyExpAt (exp : NumClaim) (now : Int) : Bool :=
  match exp with
  | .absent => true
  | .num e => if e = 0 then true else decide (now < e)
  | .malformed => false

/-- golang-jwt v4 `MapClaims.VerifyIssuedAt(now, false)`: an absent (or
zero) `iat` passes, a numeric `iat` passes once `now` has reached it, and a
non-numeric `iat` fails. -/
def verifyIssuedAt (iat : NumClaim) (now : Int) : Bool :=
  match iat with
  | .absent => true
  | .num i => if i = 0 then true else decide (i ≤ now)
  | .malformed => false

/-- golang-jwt v4 `MapClaims.VerifyNotBefore(now, false)`: an absent (or
zero) `nbf` passes, a numeric `nbf` passes once `now` has reached it, and a
non-numeric `nbf` fails. -/
def verifyNotBefore (nbf : NumClaim) (now : Int) : Bool :=
  match nbf with
  | .absent => true
  | .num n => if n = 0 then true else decide (n ≤ now)
  | .malformed => false

/-- Go `validateSessionToken(tokenString)`: resolve the secret; `jwt.Parse`
verifies the signing method is HMAC (the keyfunc's type assertion) and the
MAC under the secret, and validates the registered `exp`, `iat` and `nbf`
claims (`MapClaims.Valid` of golang-jwt v4, surfaced as a parse error);
then the function extracts `uid`, `email` and `exp`, rejecting an absent
claim, and re-checks the expiry (`time.Now().Unix() > int64(exp)`). -/
def validateSessionToken (jwtSecretEnv : String) (now : Int) (t : JwtToken) :
    Except String UserSession :=
  let secretKey := resolveJwtSecret jwtSecretEnv
  if isHMAC t.method = false then .error "unexpected signing method"
  else if !(t.sigKey == secretKey) then .error "signature is invalid"
  else if verifyExpAt t.claims.exp now = false then .error "Token is expired"
  else if verifyIssuedAt t.claims.iat now = false then .error "Token used before issued"
  else if verifyNotBefore t.claims.nbf now = false then .error "Token is not valid yet"
  else
    match t.claims.uid with
    | Option.none => .error "uid not found in token"
    | some uid =>
      match t.claims.email with
      | Option.none => .error "email not found in token"
      | some email =>
        match t.claims.exp with
        | NumClaim.num exp =>
          if now > exp then .error "token expired"
          else .ok { UID := uid, Email := email, ExpiresAt := exp }
        | _ => .error "expiration not found in token"

/-- The `(map[string]interface{}, int)` pair the request processors return:
the body's `error` entry (when the request failed) and the HTTP status. -/
structure HandlerResponse where
  errMsg : Option String
  status : Nat
deriving DecidableEq, Repr

/-- Go `processUnlinkAccountRequest(ctx, req, token)`, from the point where
the request body has been decoded (transport and JSON-decode failures are
upstream of the identity logic).  `getUserOk` is the outcome of
`authClient.GetUser(token.UID)`, `userProviders` the provider ids of the
user record's `ProviderUserInfo`, `provider` the request's.  The store is
threaded to record that no path writes to it: the final branch logs
`UnlinkProvider not implemented` and returns 501 without removing
anything. -/
def processUnlinkAccountRequest (getUserOk : Bool)
    (userProviders : List String) (provider : String)
    (store : FirestoreUsers) : HandlerResponse × FirestoreUsers :=
  if provider = "" then
    (⟨some "プロバイダーが指定されていません", 400⟩, store)
  else if !getUserOk then
    (⟨some "ユーザー情報の取得に失敗しました", 500⟩, store)
  else if !(userProviders.contains provider) then
    (⟨some "このプロバイダーはリンクされていません", 400⟩, store)
  else if userProviders.length ≤ 1 then
    (⟨some "最後の認証方法は解除できません", 400⟩, store)
  else
    (⟨some "アカウント解除機能は現在実装中です", 501⟩, store)

/-- Go struct `GoogleUserInfo`, restricted to the fields the identity logic
reads (`ID`, `Email`, `VerifiedEmail`, `Name`). -/
structure GoogleUserInfo where
  ID : String
  Email : String
  VerifiedEmail : Bool
  Name : String
deriving DecidableEq, Repr

/-- Go struct `GoogleAuthRequest`. -/
structure GoogleAuthRequest where
  Code : String
  RedirectURI : String
  LinkUID : String
deriving DecidableEq, Repr

/-- An error from the Firebase Auth admin client.  The handler only inspects
whether the error text contains `already in use`
(`strings.Contains(err.Error(), "already in use")`), so errors are split
into exactly those two classes; `fmt.Errorf` wrapping preserves the
class. -/
inductive FirebaseErr where
  | alreadyInUse
  | other (msg : String)
deriving DecidableEq, Repr

/-- Outcomes of the external collaborators a single Google-auth request
consults, supplied as inputs so the handler's control flow over them is
explicit. -/
structure AuthOracle where
  /-- `exchangeCodeForToken` succeeded (config present, token endpoint 200). -/
  exchangeOk : Bool
  /-- `getUserInfoFromGoogle` outcome. -/
  userInfo : Except String GoogleUserInfo
  /-- `authClient.GetUser(linkUID)` found the link target (link mode). -/
  getUserExists : Bool
  /-- `authClient.GetUserByEmail`: the uid of an existing Firebase user for
  the email, `none` when the lookup errs (user unseen). -/
  getUserByEmail : Option String
  /-- `authClient.CreateUser` outcome. -/
  createUser : Except FirebaseErr Unit
  /-- `saveUserDataToFirestore` write outcome. -/
  saveOk : Bool
deriving Repr

/-- Go `createOrGetFirebaseUser(ctx, googleUser, linkUID)`, also returning
the store as updated by its `saveUserDataToFirestore` calls.  A failed save
is logged (`WARN`) and the function continues, so `saveOk = false` leaves
the store untouched without raising an error.  The Go branches that decode a
fetched document (`getUserDataByUID` errors) and the best-effort
`authClient.UpdateUser` profile refresh (failure logged, login continues)
carry no state the embedding tracks. -/
def createOrGetFirebaseUser (o : AuthOracle) (store : FirestoreUsers)
    (googleUser : GoogleUserInfo) (linkUID : String) :
    Except FirebaseErr (String × FirestoreUsers) :=
  if linkUID ≠ "" then
    if !o.getUserExists then
      .error (.other "リンク先のユーザーが見つかりません")
    else
      let userData := getUserDataByUID store linkUID
      let userData := addOAuthProvider userData "google" googleUser.Email linkUID
      let store' := if o.saveOk then setDoc store linkUID userData else store
      .ok (linkUID, store')
  else
    match o.getUserByEmail with
    | Option.none =>
      let uid := "google_" ++ googleUser.ID
      match o.createUser with
      | .error e => .error e
      | .ok _ =>
        let userData := addOAuthProvider (newUserData uid) "google" googleUser.Email uid
        let store' := if o.saveOk then setDoc store uid userData else store
        .ok (uid, store')
    | some existingUID =>
      let userData := getUserDataByUID store existingUID
      let userData := { userData with UID := existingUID }
      let userData := addOAuthProvider userData "google" googleUser.Email existingUID
      let store' := if o.saveOk then setDoc store existingUID userData else store
      .ok (existingUID, store')

/-- The response body of the Google-auth processor: on success `uid`,
`email` and the freshly minted session token; on failure the error entry. -/
structure AuthResponse where
  status : Nat
  uid : Option String
  email : Option String
  sessionToken : Option JwtToken
  errMsg : Option String
deriving DecidableEq, Repr

/-- Go `processGoogleAuthRequest(ctx, req)`, from the point where the
request body has been decoded: field validation, code exchange, profile
fetch, verified-email gate, `createOrGetFirebaseUser` (409 when its error
says the account is already in use, 500 otherwise), then
`generateSessionToken` and the 200 response. -/
def processGoogleAuthRequest (o : AuthOracle) (jwtSecretEnv : String)
    (now : Int) (store : FirestoreUsers) (authData : GoogleAuthRequest) :
    AuthResponse × FirestoreUsers :=
  if authData.Code = "" then
    (⟨400, none, none, none, some "認証コードが提供されていません"⟩, store)
  else if authData.RedirectURI = "" then
    (⟨400, none, none, none, some "リダイレクトURIが提供されていません"⟩, store)
  else if !o.exchangeOk then
    (⟨400, none, none, none, some "認証コードの交換に失敗しました"⟩, store)
  else
    match o.userInfo with
    | .error _ =>
      (⟨500, none, none, none, some "ユーザー情報の取得に失敗しました"⟩, store)
    | .ok userInfo =>
      if !userInfo.VerifiedEmail then
        (⟨400, none, none, none, some "メールアドレスが認証されていません"⟩, store)
      else
        match createOrGetFirebaseUser o store userInfo authData.LinkUID with
        | .error .alreadyInUse =>
          (⟨409, none, none, none,
            some "このGoogleアカウントは既に他のアカウントで使用されています"⟩, store)
        | .error (.other _) =>
          (⟨500, none, none, none, some "ユーザーアカウントの作成に失敗しました"⟩, store)
        | .ok (uid, store') =>
          match generateSessionToken jwtSecretEnv uid userInfo.Email now with
          | .error _ =>
            (⟨500, none, none, none, some "セッショントークンの生成に失敗しました"⟩, store')
          | .ok tok =>
            (⟨200, some uid, some userInfo.Email, some tok, none⟩, store')

/-- Scenario A's provider profile: previously unseen `e@x.com`, Google
account id `42`, verified. -/
def scenarioAUser : GoogleUserInfo :=
  { ID := "42", Email := "e@x.com", VerifiedEmail := true, Name := "E" }

/-- Scenario A's collaborator outcomes: the email is unseen
(`GetUserByEmail` fails), user creation and the document write succeed. -/
def scenarioAOracle : AuthOracle :=
  { exchangeOk := true, userInfo := .ok scenarioAUser, getUserExists := true,
    getUserByEmail := none, createUser := .ok (), saveOk := true }

/-- A request in which the upstream checks succeed for an already-known
email but the identity-document write fails (`saveOk = false`). -/
def mergeFailOracle : AuthOracle :=
  { exchangeOk := true, userInfo := .ok scenarioAUser, getUserExists := true,
    getUserByEmail := some "u1", createUser := .ok (), saveOk := false }

/-- A token signed with the active (fallback) secret, HS256, carrying
well-formed `uid`/`email`, an unexpired `exp` — and an `iat` in the
future. -/
def futureIatToken : JwtToken :=
  { method := .HS256,
    claims := { uid := some "u1", email := some "a@b.com",
                exp := .num 100, iat := .num 1000, nbf := .absent },
    sigKey := defaultDevSecret }

/-! ## Theorems -/

/-- C2 counterexample: with the `JWT_SECRET` environment variable unset,
`generateSessionToken` does not fail — it returns a token signed with the
hardcoded development fallback key. -/
theorem generateSessionToken_missing_secret_counterexample :
    generateSessionToken "" "u1" "a@b.com" 0 =
      Except.ok
        { method := .HS256,
          claims := { uid := some "u1", email := some "a@b.com",
                      exp := .num 86400, iat := .num 0, nbf := .absent },
          sigKey := "your-default-secret-key-for-development-only" } := rfl

/-- C2 (amended): minting never fails on a missing secret; with
`JWT_SECRET` unset the token is signed with the hardcoded development
fallback key, and with it set the token is signed with the configured
secret. -/
theorem generateSessionToken_fallback_key :
    (∀ (uid email : String) (now : Int),
        ∃ t, generateSessionToken "" uid email now = Except.ok t ∧
          t.sigKey = defaultDevSecret) ∧
    (∀ (env uid email : String) (now : Int), env ≠ "" →
        ∃ t, generateSessionToken env uid email now = Except.ok t ∧
          t.sigKey = env) := by
  constructor
  · intro uid email now
    exact ⟨_, rfl, by simp [resolveJwtSecret]⟩
  · intro env uid email now h
    exact ⟨_, rfl, by simp [resolveJwtSecret, h]⟩

/-- C10: a token whose header declares a signing algorithm outside the HMAC
family is rejected by `validateSessionToken` with the
`unexpected signing method` error, whatever its claims. -/
theorem validateSessionToken_rejects_non_hmac :
    ∀ (jwtSecretEnv : String) (now : Int) (t : JwtToken),
      isHMAC t.method = false →
      validateSessionToken jwtSecretEnv now t =
        Except.error "unexpected signing method" := by
  intro env now t h
  simp [validateSessionToken, h]

/-- C10 witness: an `alg = none` token with well-formed, unexpired claims
and a signature matching the active secret is still rejected. -/
theorem validateSessionToken_rejects_non_hmac_witness :
    validateSessionToken "" 0
        { method := .none,
          claims := { uid := some "u1", email := some "a@b.com",
                      exp := .num 86400, iat := .num 0, nbf := .absent },
          sigKey := defaultDevSecret } =
      Except.error "unexpected signing method" :=
  validateSessionToken_rejects_non_hmac "" 0 _ rfl

/-- C6: on an identity whose user record carries exactly one provider
binding, the unlink request is rejected with a 4xx error response and the
store is left unchanged, whichever provider the request names. -/
theorem unlink_last_binding_rejected :
    ∀ (userProviders : List String) (provider : String)
      (store : FirestoreUsers),
      userProviders.length = 1 →
      (processUnlinkAccountRequest true userProviders provider store).1.status = 400 ∧
      (processUnlinkAccountRequest true userProviders provider store).1.errMsg.isSome = true ∧
      (processUnlinkAccountRequest true userProviders provider store).2 = store := by
  intro userProviders provider store h
  by_cases hp : provider = ""
  · simp [processUnlinkAccountRequest, hp]
  · by_cases hc : provider ∈ userProviders
    · have hlen : userProviders.length ≤ 1 := by omega
      simp [processUnlinkAccountRequest, hp, hc, hlen]
    · simp [processUnlinkAccountRequest, hp, hc]

/-- C6 witness: unlinking the lone `password` binding is rejected with 400
and the store is untouched. -/
theorem unlink_last_binding_rejected_witness :
    (processUnlinkAccountRequest true ["password"] "password" []).1.status = 400 ∧
    (processUnlinkAccountRequest true ["password"] "password" []).1.errMsg.isSome = true ∧
    (processUnlinkAccountRequest true ["password"] "password" []).2 = ([] : FirestoreUsers) :=
  unlink_last_binding_rejected ["password"] "password" [] rfl

/-- C7: an identity with two linked providers, where the spec mandates that
unlinking one succeeds, removes the binding and persists — but the code
answers 501 `not implemented` and writes nothing. -/
theorem unlink_two_providers_not_implemented :
    processUnlinkAccountRequest true ["google.com", "password"] "google.com" [] =
      (⟨some "アカウント解除機能は現在実装中です", 501⟩, []) := by
  decide

/-- C9 counterexample: on a first Google login for the unseen `e@x.com`
with provider user id `42`, the google binding the code stores carries
`userUID = "google_42"` (the derived Firebase uid the document is saved
under), not the raw provider user id `"42"` the claim states. -/
theorem scenarioA_binding_uid_counterexample :
    createOrGetFirebaseUser scenarioAOracle [] scenarioAUser "" =
      Except.ok ("google_42",
        [("google_42",
          { UserName := "", UserColor := "#3b82f6", UID := "google_42",
            Email := [], Google := [⟨"google_42", "e@x.com"⟩],
            GitHub := [], Twitter := [] })]) ∧
    (⟨"google_42", "e@x.com"⟩ : OAuthProviderInfo) ≠ ⟨"42", "e@x.com"⟩ :=
  ⟨rfl, by decide⟩

/-- C9 (amended): the first Google login for the unseen `e@x.com` with
provider user id `42` creates and persists exactly one identity, keyed by
and carrying `uid = "google_42"`, whose google binding list is the single
entry `{userUID "google_42", email "e@x.com"}` — the stored userUID being
the derived Firebase uid `google_42`, not the raw provider id — with
`userName = ""`, `userColor = "#3b82f6"` and all other binding lists
empty. -/
theorem scenarioA_created_identity :
    ∃ d, createOrGetFirebaseUser scenarioAOracle [] scenarioAUser "" =
        Except.ok ("google_42", [("google_42", d)]) ∧
      d.UID = "google_42" ∧
      d.Google = [⟨"google_42", "e@x.com"⟩] ∧
      d.UserName = "" ∧ d.UserColor = "#3b82f6" ∧
      d.Email = [] ∧ d.GitHub = [] ∧ d.Twitter = [] :=
  ⟨_, rfl, rfl, rfl, rfl, rfl, rfl, rfl, rfl⟩

/-- Helper: the OAuth merge leaves the profile fields untouched on every
branch of its provider dispatch. -/
theorem addOAuthProvider_preserves_profile (d : UserData) (p e u : String) :
    (addOAuthProvider d p e u).UserName = d.UserName ∧
    (addOAuthProvider d p e u).UserColor = d.UserColor := by
  unfold addOAuthProvider
  split <;> exact ⟨rfl, rfl⟩

/-- Helper: the password-binding merge leaves the profile fields
untouched. -/
theorem addEmailProvider_preserves_profile (d : UserData) (e u : String) :
    (addEmailProvider d e u).UserName = d.UserName ∧
    (addEmailProvider d e u).UserColor = d.UserColor := by
  unfold addEmailProvider
  split <;> exact ⟨rfl, rfl⟩

/-- Helper: reading back the document just written. -/
theorem getDoc_setDoc (store : FirestoreUsers) (uid : String) (d : UserData) :
    getDoc (setDoc store uid d) uid = some d := by
  simp [getDoc, setDoc]

/-- C5: neither merging a binding (`addOAuthProvider`, `addEmailProvider`)
nor the unlink request ever changes `userName`/`userColor`: the merges
rewrite only the selected binding list, the unlink handler writes nothing,
and the full `linkGoogleAccount` workflow persists a document whose
profile fields equal those of the previously stored document. -/
theorem profile_fields_preserved :
    (∀ (d : UserData) (provider email uid : String),
        (addOAuthProvider d provider email uid).UserName = d.UserName ∧
        (addOAuthProvider d provider email uid).UserColor = d.UserColor) ∧
    (∀ (d : UserData) (email uid : String),
        (addEmailProvider d email uid).UserName = d.UserName ∧
        (addEmailProvider d email uid).UserColor = d.UserColor) ∧
    (∀ (getUserOk : Bool) (userProviders : List String) (provider : String)
        (store : FirestoreUsers),
        (processUnlinkAccountRequest getUserOk userProviders provider store).2 = store) ∧
    (∀ (store : FirestoreUsers) (uid email : String) (d₀ : UserData)
        (saveOk : Bool) (store' : FirestoreUsers),
        getDoc store uid = some d₀ →
        linkGoogleAccount store uid email saveOk = Except.ok store' →
        ∃ d', getDoc store' uid = some d' ∧
          d'.UserName = d₀.UserName ∧ d'.UserColor = d₀.UserColor) := by
  refine ⟨addOAuthProvider_preserves_profile, addEmailProvider_preserves_profile, ?_, ?_⟩
  · intro g ups p store
    unfold processUnlinkAccountRequest
    repeat' split
    all_goals rfl
  · intro store uid email d₀ saveOk store' h hlink
    have hgud : getUserDataByUID store uid = d₀ := by
      simp [getUserDataByUID, h]
    cases saveOk with
    | false => simp [linkGoogleAccount] at hlink
    | true =>
      simp only [linkGoogleAccount, if_true, Except.ok.injEq] at hlink
      subst hlink
      refine ⟨_, getDoc_setDoc store uid _, ?_, ?_⟩
      · rw [hgud] at *
        exact (addOAuthProvider_preserves_profile d₀ "google" email uid).1
      · rw [hgud] at *
        exact (addOAuthProvider_preserves_profile d₀ "google" email uid).2

/-- Helper: when some OAuth entry already matches on email or uid, the
merge loop leaves the list unchanged. -/
theorem addOAuthInfo_of_match (l : List OAuthProviderInfo) (e u : String)
    (h : l.any (fun o => o.EmailAddress == e || o.UserUID == u) = true) :
    addOAuthInfo l e u = l := by
  unfold addOAuthInfo
  simp only [h, if_true]

/-- Helper: the OAuth merge loop is idempotent — the entry it appends
matches its own duplicate check. -/
theorem addOAuthInfo_idem (l : List OAuthProviderInfo) (e u : String) :
    addOAuthInfo (addOAuthInfo l e u) e u = addOAuthInfo l e u := by
  unfold addOAuthInfo
  by_cases h : l.any (fun o => o.EmailAddress == e || o.UserUID == u) = true
  · simp only [h, if_true]
  · have h' : l.any (fun o => o.EmailAddress == e || o.UserUID == u) = false :=
      Bool.eq_false_iff.mpr h
    simp [h', List.any_append]

/-- Helper: starting from a list in which no entry matches, the merge loop
produces exactly one matching entry. -/
theorem addOAuthInfo_count (l : List OAuthProviderInfo) (e u : String)
    (h : l.any (fun o => o.EmailAddress == e || o.UserUID == u) = false) :
    (addOAuthInfo l e u).countP
      (fun o => o.EmailAddress == e || o.UserUID == u) = 1 := by
  unfold addOAuthInfo
  have h0 : l.countP (fun o => o.EmailAddress == e || o.UserUID == u) = 0 :=
    List.countP_eq_zero.mpr (List.any_eq_false.mp h)
  simp [h, List.countP_append, h0]

/-- Helper: when some password entry already matches on email or uid, the
merge leaves the document unchanged. -/
theorem addEmailProvider_of_match (d : UserData) (e u : String)
    (h : d.Email.any (fun i => i.EmailAddress == e || i.UserUID == u) = true) :
    addEmailProvider d e u = d := by
  unfold addEmailProvider
  simp only [h, if_true]

/-- Helper: the password-binding merge is idempotent. -/
theorem addEmailProvider_idem (d : UserData) (e u : String) :
    addEmailProvider (addEmailProvider d e u) e u = addEmailProvider d e u := by
  unfold addEmailProvider
  by_cases h : d.Email.any (fun i => i.EmailAddress == e || i.UserUID == u) = true
  · simp only [h, if_true]
  · have h' : d.Email.any (fun i => i.EmailAddress == e || i.UserUID == u) = false :=
      Bool.eq_false_iff.mpr h
    simp [h', List.any_append]

/-- Helper: starting from a document in which no password entry matches,
the merge produces exactly one matching entry. -/
theorem addEmailProvider_count (d : UserData) (e u : String)
    (h : d.Email.any (fun i => i.EmailAddress == e || i.UserUID == u) = false) :
    (addEmailProvider d e u).Email.countP
      (fun i => i.EmailAddress == e || i.UserUID == u) = 1 := by
  unfold addEmailProvider
  have h0 : d.Email.countP (fun i => i.EmailAddress == e || i.UserUID == u) = 0 :=
    List.countP_eq_zero.mpr (List.any_eq_false.mp h)
  simp [h, List.countP_append, h0]

/-- C1: for every identity document and every binding kind, if the kind's
list already holds an entry matching the given provider uid OR the given
email, the merge returns the document unchanged; the merge applied twice
with the same arguments equals the merge applied once; and from a document
with no matching entry, merging twice leaves exactly one matching entry in
the kind's list. -/
theorem addBinding_idempotent_merge :
    ∀ (d : UserData) (k : ProviderKind) (providerUID email : String),
      (hasMatchingBinding d k providerUID email = true →
        addBinding d k providerUID email = d) ∧
      (addBinding (addBinding d k providerUID email) k providerUID email =
        addBinding d k providerUID email) ∧
      (hasMatchingBinding d k providerUID email = false →
        countMatchingBindings
          (addBinding (addBinding d k providerUID email) k providerUID email)
          k providerUID email = 1) := by
  intro d k u e
  cases k
  case password =>
    refine ⟨fun h => addEmailProvider_of_match d e u h, addEmailProvider_idem d e u, fun h => ?_⟩
    show (addEmailProvider (addEmailProvider d e u) e u).Email.countP _ = 1
    rw [addEmailProvider_idem]
    exact addEmailProvider_count d e u h
  case google =>
    refine ⟨fun h => ?_, ?_, fun h => ?_⟩
    · show { d with Google := addOAuthInfo d.Google e u } = d
      rw [addOAuthInfo_of_match d.Google e u h]
    · show ({ d with Google := addOAuthInfo (addOAuthInfo d.Google e u) e u } : UserData) =
        { d with Google := addOAuthInfo d.Google e u }
      rw [addOAuthInfo_idem]
    · show (addOAuthInfo (addOAuthInfo d.Google e u) e u).countP _ = 1
      rw [addOAuthInfo_idem]
      exact addOAuthInfo_count d.Google e u h
  case github =>
    refine ⟨fun h => ?_, ?_, fun h => ?_⟩
    · show { d with GitHub := addOAuthInfo d.GitHub e u } = d
      rw [addOAuthInfo_of_match d.GitHub e u h]
    · show ({ d with GitHub := addOAuthInfo (addOAuthInfo d.GitHub e u) e u } : UserData) =
        { d with GitHub := addOAuthInfo d.GitHub e u }
      rw [addOAuthInfo_idem]
    · show (addOAuthInfo (addOAuthInfo d.GitHub e u) e u).countP _ = 1
      rw [addOAuthInfo_idem]
      exact addOAuthInfo_count d.GitHub e u h
  case twitter =>
    refine ⟨fun h => ?_, ?_, fun h => ?_⟩
    · show { d with Twitter := addOAuthInfo d.Twitter e u } = d
      rw [addOAuthInfo_of_match d.Twitter e u h]
    · show ({ d with Twitter := addOAuthInfo (addOAuthInfo d.Twitter e u) e u } : UserData) =
        { d with Twitter := addOAuthInfo d.Twitter e u }
      rw [addOAuthInfo_idem]
    · show (addOAuthInfo (addOAuthInfo d.Twitter e u) e u).countP _ = 1
      rw [addOAuthInfo_idem]
      exact addOAuthInfo_count d.Twitter e u h

/-- C4: `findOrCreateUserDataByEmail` succeeds exactly on the first of the
four kind queries — password, then google, then github, then twitter — that
matches, and whenever any stored identity has a password binding for the
email, the returned identity is a password match (the cross-kind precedence
is decided by the fixed probe order, not by where identities sit in the
store). -/
theorem findOrCreateUserDataByEmail_precedence :
    (∀ (store : FirestoreUsers) (e : String) (u : UserData),
        findOrCreateUserDataByEmail store e = Except.ok u ↔
          (findUserByKindEmail store .password e = some u ∨
           (findUserByKindEmail store .password e = none ∧
            findUserByKindEmail store .google e = some u) ∨
           (findUserByKindEmail store .password e = none ∧
            findUserByKindEmail store .google e = none ∧
            findUserByKindEmail store .github e = some u) ∨
           (findUserByKindEmail store .password e = none ∧
            findUserByKindEmail store .google e = none ∧
            findUserByKindEmail store .github e = none ∧
            findUserByKindEmail store .twitter e = some u))) ∧
    (∀ (store : FirestoreUsers) (e : String),
        (∃ p ∈ store, matchesKindEmail p.2 .password e = true) →
        ∀ u, findOrCreateUserDataByEmail store e = Except.ok u →
          matchesKindEmail u .password e = true) := by
  constructor
  · intro store e u
    cases h1 : findUserByKindEmail store .password e with
    | some v => simp [findOrCreateUserDataByEmail, h1]
    | none =>
      cases h2 : findUserByKindEmail store .google e with
      | some v => simp [findOrCreateUserDataByEmail, h1, h2]
      | none =>
        cases h3 : findUserByKindEmail store .github e with
        | some v => simp [findOrCreateUserDataByEmail, h1, h2, h3]
        | none =>
          cases h4 : findUserByKindEmail store .twitter e with
          | some v => simp [findOrCreateUserDataByEmail, h1, h2, h3, h4]
          | none => simp [findOrCreateUserDataByEmail, h1, h2, h3, h4]
  · intro store e hex u hu
    obtain ⟨p, hp, hmp⟩ := hex
    have hsome : (store.find? (fun q => matchesKindEmail q.2 ProviderKind.password e)).isSome :=
      List.find?_isSome.mpr ⟨p, hp, hmp⟩
    obtain ⟨w, hw⟩ := Option.isSome_iff_exists.mp hsome
    have hpw := List.find?_some hw
    have hfind : findUserByKindEmail store .password e = some w.2 := by
      simp [findUserByKindEmail, hw]
    rw [findOrCreateUserDataByEmail, hfind] at hu
    cases hu
    exact hpw

/-- C3 counterexample: a token whose MAC verifies under the active secret
with HS256, whose `uid`, `email` and `exp` claims are present and whose
`exp` has not passed, is nevertheless rejected when its `iat` lies in the
future — golang-jwt v4's registered-claims validation fails the parse —
refuting the claim's `exactly when`. -/
theorem validateSessionToken_future_iat_counterexample :
    isHMAC futureIatToken.method = true ∧
    futureIatToken.sigKey = resolveJwtSecret "" ∧
    futureIatToken.claims.uid = some "u1" ∧
    futureIatToken.claims.email = some "a@b.com" ∧
    futureIatToken.claims.exp = NumClaim.num 100 ∧
    ((0 : Int) < 100) ∧
    validateSessionToken "" 0 futureIatToken =
      Except.error "Token used before issued" :=
  ⟨rfl, rfl, rfl, rfl, rfl, by decide, rfl⟩

/-- C3 (amended): `validateSessionToken` returns a session exactly when the
token's signature verifies under the active secret with an HMAC-family
method, the `uid`, `email` and `exp` claims are present, `exp` has not
passed (both the library's strict check and the function's own bound), and
the registered `iat` and `nbf` claims pass golang-jwt v4's validation
(absent, zero, or already reached — a future or non-numeric `iat`/`nbf` is
rejected); and a token minted by `generateSessionToken` validates
immediately to the very `{uid, email}` it embeds. -/
theorem validateSessionToken_exactness_and_roundtrip :
    (∀ (env : String) (now : Int) (t : JwtToken) (s : UserSession),
        validateSessionToken env now t = Except.ok s ↔
          (isHMAC t.method = true ∧ t.sigKey = resolveJwtSecret env ∧
           t.claims.uid = some s.UID ∧ t.claims.email = some s.Email ∧
           t.claims.exp = NumClaim.num s.ExpiresAt ∧
           verifyExpAt t.claims.exp now = true ∧
           verifyIssuedAt t.claims.iat now = true ∧
           verifyNotBefore t.claims.nbf now = true ∧
           now ≤ s.ExpiresAt)) ∧
    (∀ (env uid email : String) (now : Int),
        ∃ t, generateSessionToken env uid email now = Except.ok t ∧
          validateSessionToken env now t =
            Except.ok { UID := uid, Email := email, ExpiresAt := now + 86400 }) := by
  constructor
  · intro env now t s
    by_cases hm : isHMAC t.method = false
    · simp [validateSessionToken, hm]
    · have hm' : isHMAC t.method = true := by
        revert hm; cases isHMAC t.method <;> simp
      by_cases hk : t.sigKey = resolveJwtSecret env
      · by_cases hexp : verifyExpAt t.claims.exp now = false
        · simp [validateSessionToken, hm', hk, hexp]
        · have hexp' : verifyExpAt t.claims.exp now = true := by
            revert hexp; cases verifyExpAt t.claims.exp now <;> simp
          by_cases hiat : verifyIssuedAt t.claims.iat now = false
          · simp [validateSessionToken, hm', hk, hexp', hiat]
          · have hiat' : verifyIssuedAt t.claims.iat now = true := by
              revert hiat; cases verifyIssuedAt t.claims.iat now <;> simp
            by_cases hnbf : verifyNotBefore t.claims.nbf now = false
            · simp [validateSessionToken, hm', hk, hexp', hiat', hnbf]
            · have hnbf' : verifyNotBefore t.claims.nbf now = true := by
                revert hnbf; cases verifyNotBefore t.claims.nbf now <;> simp
              cases hu : t.claims.uid with
              | none =>
                simp [validateSessionToken, hm', hk, hexp', hiat', hnbf', hu]
              | some u =>
                cases he : t.claims.email with
                | none =>
                  simp [validateSessionToken, hm', hk, hexp', hiat', hnbf', hu, he]
                | some em =>
                  cases hx : t.claims.exp with
                  | absent =>
                    rw [hx] at hexp'
                    simp [validateSessionToken, hm', hk, hexp', hiat', hnbf', hu, he, hx]
                  | malformed =>
                    rw [hx] at hexp'
                    simp [validateSessionToken, hm', hk, hexp', hiat', hnbf', hu, he, hx]
                  | num x =>
                    rw [hx] at hexp'
                    by_cases hgt : now > x
                    · have hval : validateSessionToken env now t =
                          Except.error "token expired" := by
                        simp [validateSessionToken, hm', hk, hexp', hiat', hnbf', hu, he, hx, hgt]
                      rw [hval]
                      constructor
                      · intro h; exact absurd h (by simp)
                      · rintro ⟨-, -, -, -, hxe, -, -, -, hle⟩
                        injection hxe with hxe
                        omega
                    · have hval : validateSessionToken env now t =
                          Except.ok { UID := u, Email := em, ExpiresAt := x } := by
                        simp [validateSessionToken, hm', hk, hexp', hiat', hnbf', hu, he, hx, hgt]
                      rw [hval]
                      constructor
                      · intro h
                        cases h
                        refine ⟨hm', hk, rfl, rfl, rfl, hexp', hiat', hnbf', ?_⟩
                        show now ≤ x
                        omega
                      · rintro ⟨-, -, h1, h2, h3, -, -, -, -⟩
                        obtain ⟨a, b, c⟩ := s
                        injection h1 with h1
                        injection h2 with h2
                        injection h3 with h3
                        subst h1
                        subst h2
                        subst h3
                        rfl
      · have hkb : (t.sigKey == resolveJwtSecret env) = false :=
          beq_eq_false_iff_ne.mpr hk
        simp [validateSessionToken, hm', hkb, hk]
  · intro env uid email now
    refine ⟨_, rfl, ?_⟩
    have hexp : verifyExpAt (NumClaim.num (now + 86400)) now = true := by
      unfold verifyExpAt
      by_cases hz : now + 86400 = 0
      · simp [hz]
      · have hlt : now < now + 86400 := by omega
        simp [hz, hlt]
    have hiat : verifyIssuedAt (NumClaim.num now) now = true := by
      unfold verifyIssuedAt
      by_cases hz : now = 0
      · simp [hz]
      · simp [hz]
    have h2 : ¬ (now > now + 86400) := by omega
    simp [validateSessionToken, generateSessionToken, isHMAC, verifyNotBefore, hexp, hiat, h2]

/-- Helper: when the identity-document write fails, every successful run of
`createOrGetFirebaseUser` leaves the store exactly as it was. -/
theorem createOrGet_saveFail_store (o : AuthOracle) (store : FirestoreUsers)
    (g : GoogleUserInfo) (linkUID : String) (h : o.saveOk = false) :
    ∀ (uid : String) (store' : FirestoreUsers),
      createOrGetFirebaseUser o store g linkUID = Except.ok (uid, store') →
      store' = store := by
  intro uid store' hc
  unfold createOrGetFirebaseUser at hc
  simp only [h] at hc
  repeat' split at hc
  all_goals simp_all

/-- C8: when the field checks, the code exchange, the profile fetch and the
identity resolution all succeed but the best-effort merge-and-persist of the
identity document fails, the Google-auth request still answers 200 with a
freshly minted session token, the error entry empty and the store
unchanged. -/
theorem google_auth_merge_failure_still_issues_session :
    ∀ (o : AuthOracle) (env : String) (now : Int) (store : FirestoreUsers)
      (authData : GoogleAuthRequest) (g : GoogleUserInfo),
      authData.Code ≠ "" → authData.RedirectURI ≠ "" → o.exchangeOk = true →
      o.userInfo = Except.ok g → g.VerifiedEmail = true → o.saveOk = false →
      (createOrGetFirebaseUser o store g authData.LinkUID).isOk = true →
      ∃ uid tok,
        processGoogleAuthRequest o env now store authData =
          ({ status := 200, uid := some uid, email := some g.Email,
             sessionToken := some tok, errMsg := none }, store) := by
  intro o env now store authData g hc hr hex hui hv hs hok
  obtain ⟨p, hp⟩ : ∃ p, createOrGetFirebaseUser o store g authData.LinkUID = Except.ok p := by
    cases hcg : createOrGetFirebaseUser o store g authData.LinkUID with
    | ok p => exact ⟨p, rfl⟩
    | error e =>
      rw [hcg] at hok
      exact absurd hok (by simp [Except.isOk, Except.toBool])
  obtain ⟨uid, store'⟩ := p
  have hst : store' = store :=
    createOrGet_saveFail_store o store g authData.LinkUID hs uid store' hp
  subst hst
  refine ⟨uid,
    { method := .HS256,
      claims := { uid := some uid, email := some g.Email,
                  exp := .num (now + 86400), iat := .num now, nbf := .absent },
      sigKey := resolveJwtSecret env }, ?_⟩
  simp [processGoogleAuthRequest, hc, hr, hex, hui, hv, hp, generateSessionToken]

/-- C8 witness: a concrete request for the known email `e@x.com` whose
document write fails still yields a 200 response with a session token and
an unchanged (empty) store. -/
theorem google_auth_merge_failure_still_issues_session_witness :
    ∃ uid tok,
      processGoogleAuthRequest mergeFailOracle "" 0 [] ⟨"c", "r", ""⟩ =
        ({ status := 200, uid := some uid, email := some scenarioAUser.Email,
           sessionToken := some tok, errMsg := none }, ([] : FirestoreUsers)) :=
  google_auth_merge_failure_still_issues_session mergeFailOracle "" 0 []
    ⟨"c", "r", ""⟩ scenarioAUser (by decide) (by decide) rfl rfl rfl rfl rfl
